import Mathlib

/-!
Shallow embedding of the Go snippets of the repository `learning-go`:
the `FizzBuzz` exercise (phase-01-fundamentals/exercises/exercise-03.go),
the temperature converter `TempConvertor`, and the `divide` / `idGenerator`
functions of the functions demo. Go `int` is modelled as `Int` (Go `%` is
truncated remainder, `Int.tmod`); Go `float64` arithmetic is modelled
exactly over `ℚ`, with IEEE division by zero captured by an extended value
type where it matters (`divide`). `fmt.Sprint` on an integer is modelled as
`toString`, the base-10 rendering with a leading minus sign for negatives.
-/

namespace LearningGo

/-- Embedding of `FizzBuzz` from exercise-03.go:
`wasModified` starts `true`; the switch tests `n%15`, `n%3`, `n%5` in order,
and the default branch renders `n` with `fmt.Sprint` and resets
`wasModified` to `false`. Go `%` on `int` is truncated remainder. -/
def FizzBuzz (n : Int) : String × Bool :=
  if n.tmod 15 = 0 then ("FizzBuzz", true)
  else if n.tmod 3 = 0 then ("Fizz", true)
  else if n.tmod 5 = 0 then ("Buzz", true)
  else (toString n, false)

/-- Go `type Temp = uint8`; modelled as `Nat` (the switch only compares with
the three constants, so the 8-bit bound is irrelevant to control flow). -/
abbrev Temp := Nat

def Celsius : Temp := 0

def Fahrenheit : Temp := 1

def Kelvin : Temp := 2

/-- Embedding of `TempConvertor`: the `float64` arithmetic is carried out
exactly in `ℚ`. The structure mirrors the Go switch, including the
precomputed `nineOverFive` and `fiveOverNine` ratios and the
`return 0, 0, 0` default branch. Result is `(celsius, fahrenheit, kelvin)`. -/
def TempConvertor (temp : ℚ) (mode : Temp) : ℚ × ℚ × ℚ :=
  let nineOverFive : ℚ := 9 / 5
  let fiveOverNine : ℚ := 5 / 9
  if mode = Celsius then
    let celsius := temp
    let kelvin := celsius + 273.15
    let fahrenheit := celsius * nineOverFive + 32
    (celsius, fahrenheit, kelvin)
  else if mode = Fahrenheit then
    let fahrenheit := temp
    let celsius := (fahrenheit - 32) * fiveOverNine
    let kelvin := (fahrenheit - 32) * fiveOverNine + 273.15
    (celsius, fahrenheit, kelvin)
  else if mode = Kelvin then
    let kelvin := temp
    let celsius := kelvin - 273.15
    let fahrenheit := (kelvin - 273.15) * nineOverFive + 32
    (celsius, fahrenheit, kelvin)
  else (0, 0, 0)

/-- A Go `float64` value: either an exactly-tracked finite rational, or one
of the IEEE non-finite values produced by division by zero. -/
inductive FloatVal where
  | finite : ℚ → FloatVal
  | posInf : FloatVal
  | negInf : FloatVal
  | nan : FloatVal
deriving DecidableEq, Repr

def FloatVal.isFinite : FloatVal → Bool
  | .finite _ => true
  | _ => false

/-- IEEE-754 division `float64(a) / float64(b)` for integer operands, kept
exact: for `b ≠ 0` the quotient as a rational; for `b = 0` the IEEE results
`+Inf`, `-Inf`, or `NaN` according to the sign of `a`. -/
def float64Div (a b : Int) : FloatVal :=
  if b = 0 then
    if 0 < a then .posInf else if a < 0 then .negInf else .nan
  else .finite ((a : ℚ) / (b : ℚ))

/-- Embedding of `divide` from the functions demo: on `b == 0` the named
error return is set to a fresh error (modelled as its message string); the
quotient is computed and returned unconditionally afterwards. -/
def divide (a b : Int) : FloatVal × Option String :=
  let err : Option String := if b = 0 then some "Cannot divide by zero!" else none
  (float64Div a b, err)

/-- The state captured by the closure returned from `idGenerator`: the
single mutable variable `id`. -/
structure Generator where
  id : Int
deriving DecidableEq, Repr

/-- Embedding of `idGenerator start`: the closure's captured `id` is
initialised to `start - 1`. -/
def idGenerator (start : Int) : Generator :=
  ⟨start - 1⟩

/-- One invocation of the returned closure: `id++` then `return id`.
Yields the returned value and the updated captured state. -/
def Generator.call (g : Generator) : Int × Generator :=
  (g.id + 1, ⟨g.id + 1⟩)

/-- The generator state after `n` invocations of the closure. -/
def afterCalls (g : Generator) : Nat → Generator
  | 0 => g
  | n + 1 => ((afterCalls g n).call).2

/-- The value returned by the `k`-th invocation of the closure
(`k ≥ 1`): the first component of the call made from the state reached
after `k - 1` earlier calls. -/
def nthCallValue (g : Generator) (k : Nat) : Int :=
  ((afterCalls g (k - 1)).call).1

lemma afterCalls_id (g : Generator) (n : Nat) :
    (afterCalls g n).id = g.id + n := by
  induction n with
  | zero => simp [afterCalls]
  | succ m ih =>
    simp [afterCalls, Generator.call, ih]
    ring

lemma tmod_eq_zero_iff_dvd (a b : Int) : a.tmod b = 0 ↔ b ∣ a := by
  constructor
  · exact Int.dvd_of_tmod_eq_zero
  · exact Int.tmod_eq_zero_of_dvd

/-- C1: `FizzBuzz 15` returns the string `"FizzBuzz"` as its first result. -/
theorem FizzBuzz_fifteen : (FizzBuzz 15).1 = "FizzBuzz" := rfl

/-- C3: for every integer `n`, `FizzBuzz` selects its result by
divisibility: `"FizzBuzz"` when `15 ∣ n`, otherwise `"Fizz"` when `3 ∣ n`,
otherwise `"Buzz"` when `5 ∣ n`, otherwise the decimal rendering of `n`. -/
theorem FizzBuzz_by_divisibility (n : Int) :
    FizzBuzz n =
      if (15 : Int) ∣ n then ("FizzBuzz", true)
      else if (3 : Int) ∣ n then ("Fizz", true)
      else if (5 : Int) ∣ n then ("Buzz", true)
      else (toString n, false) := by
  simp only [FizzBuzz, tmod_eq_zero_iff_dvd]

/-- C6: `FizzBuzz`'s second result `wasModified` is `true` exactly when
`3 ∣ n` or `5 ∣ n`; when it is `false` the string is the decimal rendering
of `n`; and `FizzBuzz 0 = ("FizzBuzz", true)`. -/
theorem FizzBuzz_wasModified (n : Int) :
    ((FizzBuzz n).2 = true ↔ (3 : Int) ∣ n ∨ (5 : Int) ∣ n) ∧
    ((FizzBuzz n).2 = false → (FizzBuzz n).1 = toString n) ∧
    FizzBuzz 0 = ("FizzBuzz", true) := by
  refine ⟨?_, ?_, rfl⟩
  · rw [FizzBuzz_by_divisibility n]
    by_cases h15 : (15 : Int) ∣ n
    · simp only [h15, if_pos]
      simp only [true_iff]
      exact Or.inl (dvd_trans (by norm_num) h15)
    · by_cases h3 : (3 : Int) ∣ n
      · simp [h15, h3]
      · by_cases h5 : (5 : Int) ∣ n <;> simp [h15, h3, h5]
  · rw [FizzBuzz_by_divisibility n]
    by_cases h15 : (15 : Int) ∣ n
    · simp [h15]
    · by_cases h3 : (3 : Int) ∣ n
      · simp [h15, h3]
      · by_cases h5 : (5 : Int) ∣ n <;> simp [h15, h3, h5]

/-- Closed instance of `FizzBuzz_wasModified` at `n = 7`. -/
theorem FizzBuzz_wasModified_witness :
    ((FizzBuzz 7).2 = true ↔ (3 : Int) ∣ 7 ∨ (5 : Int) ∣ 7) ∧
    ((FizzBuzz 7).2 = false → (FizzBuzz 7).1 = toString (7 : Int)) ∧
    FizzBuzz 0 = ("FizzBuzz", true) :=
  FizzBuzz_wasModified 7

/-- C2: `TempConvertor 0 Celsius` yields `(0, 32, 273.15)` (exact over ℚ). -/
theorem TempConvertor_zero_celsius :
    TempConvertor 0 Celsius = (0, 32, 273.15) := by
  norm_num [TempConvertor, Celsius]

/-- C4: in every valid mode the three outputs obey the linear conversion
formulas: `fahrenheit = celsius * 9/5 + 32`, `kelvin = celsius + 273.15`,
and the input scale's output is `temp` unchanged. -/
theorem TempConvertor_linear (temp : ℚ) (mode : Temp)
    (h : mode = Celsius ∨ mode = Fahrenheit ∨ mode = Kelvin) :
    (TempConvertor temp mode).2.1 = (TempConvertor temp mode).1 * (9 / 5) + 32 ∧
    (TempConvertor temp mode).2.2 = (TempConvertor temp mode).1 + 273.15 ∧
    (mode = Celsius → (TempConvertor temp mode).1 = temp) ∧
    (mode = Fahrenheit → (TempConvertor temp mode).2.1 = temp) ∧
    (mode = Kelvin → (TempConvertor temp mode).2.2 = temp) := by
  rcases h with h | h | h <;> subst h <;>
    simp only [TempConvertor, Celsius, Fahrenheit, Kelvin] <;>
    norm_num <;> ring

/-- Closed instance of `TempConvertor_linear` at `temp = 50`,
`mode = Fahrenheit`. -/
theorem TempConvertor_linear_witness :
    (TempConvertor 50 Fahrenheit).2.1 =
      (TempConvertor 50 Fahrenheit).1 * (9 / 5) + 32 ∧
    (TempConvertor 50 Fahrenheit).2.2 =
      (TempConvertor 50 Fahrenheit).1 + 273.15 ∧
    (Fahrenheit = Celsius → (TempConvertor 50 Fahrenheit).1 = 50) ∧
    (Fahrenheit = Fahrenheit → (TempConvertor 50 Fahrenheit).2.1 = 50) ∧
    (Fahrenheit = Kelvin → (TempConvertor 50 Fahrenheit).2.2 = 50) :=
  TempConvertor_linear 50 Fahrenheit (Or.inr (Or.inl rfl))

/-- C7: for any mode other than `Celsius`, `Fahrenheit`, `Kelvin`, the
converter returns `(0, 0, 0)` regardless of the input temperature. -/
theorem TempConvertor_invalid_mode (temp : ℚ) (mode : Temp)
    (h1 : mode ≠ Celsius) (h2 : mode ≠ Fahrenheit) (h3 : mode ≠ Kelvin) :
    TempConvertor temp mode = (0, 0, 0) := by
  simp [TempConvertor, h1, h2, h3]

/-- Closed instance of `TempConvertor_invalid_mode` at `temp = 42`,
`mode = 3`. -/
theorem TempConvertor_invalid_mode_witness :
    TempConvertor 42 3 = (0, 0, 0) :=
  TempConvertor_invalid_mode 42 3 (by decide) (by decide) (by decide)

/-- C5: the closure from `idGenerator start` returns `start` on its first
call and `start + k - 1` on its `k`-th call, and every call increments the
captured `id` by exactly one. -/
theorem idGenerator_generates (start : Int) (k : Nat) (hk : 1 ≤ k)
    (g : Generator) :
    nthCallValue (idGenerator start) 1 = start ∧
    nthCallValue (idGenerator start) k = start + k - 1 ∧
    (g.call).2.id = g.id + 1 := by
  refine ⟨?_, ?_, rfl⟩
  · simp [nthCallValue, afterCalls, idGenerator, Generator.call]
  · simp only [nthCallValue, Generator.call, afterCalls_id, idGenerator]
    obtain ⟨m, rfl⟩ : ∃ m, k = m + 1 := ⟨k - 1, (Nat.succ_pred_eq_of_pos hk).symm⟩
    simp
    ring

/-- Closed instance of `idGenerator_generates` at `start = 10`, `k = 4`,
state `⟨7⟩`. -/
theorem idGenerator_generates_witness :
    nthCallValue (idGenerator 10) 1 = 10 ∧
    nthCallValue (idGenerator 10) 4 = 10 + (4 : Nat) - 1 ∧
    ((⟨7⟩ : Generator).call).2.id = (⟨7⟩ : Generator).id + 1 :=
  idGenerator_generates 10 4 (by decide) ⟨7⟩

/-- C8: `divide a b` returns a non-nil error exactly when `b = 0`; for
`b ≠ 0` the error is nil and the result is the exact quotient; for `b = 0`
a non-finite result value is still returned alongside the error. -/
theorem divide_spec (a b : Int) :
    ((divide a b).2 ≠ none ↔ b = 0) ∧
    (b ≠ 0 → (divide a b).2 = none ∧
      (divide a b).1 = FloatVal.finite ((a : ℚ) / (b : ℚ))) ∧
    (b = 0 → (divide a b).1.isFinite = false) := by
  refine ⟨?_, ?_, ?_⟩
  · by_cases hb : b = 0 <;> simp [divide, hb]
  · intro hb
    simp [divide, float64Div, hb]
  · intro hb
    subst hb
    by_cases h1 : 0 < a
    · simp [divide, float64Div, FloatVal.isFinite, h1]
    · by_cases h2 : a < 0 <;>
        simp [divide, float64Div, FloatVal.isFinite, h1, h2]

/-- Closed instance of `divide_spec` at `a = 7`, `b = 0`. -/
theorem divide_spec_witness :
    ((divide 7 0).2 ≠ none ↔ (0 : Int) = 0) ∧
    ((0 : Int) ≠ 0 → (divide 7 0).2 = none ∧
      (divide 7 0).1 = FloatVal.finite ((7 : ℚ) / (0 : ℚ))) ∧
    ((0 : Int) = 0 → (divide 7 0).1.isFinite = false) :=
  divide_spec 7 0

end LearningGo
